import Mathlib

/-!
# pgutil: string-table access layer over `database/sql`

Shallow embedding of `src/pgutil.go`.  The database driver is an external
collaborator, so a handle and a cursor are modelled by what they answer to the
calls the source makes on them (`Query`, `Columns`, `Next`, `Scan`, `Close`).
A Go multiple return `(v, err)` is a Lean pair whose second component is
`none` for `nil`; a Go slice is a `List`, and the `nil` slice is `[]`.
-/

namespace Pgutil

/-! ## Data model -/

/-- A Go `error` value: either one handed over by `database/sql` or the
driver, or one built in this package by `fmt.Errorf`. -/
inductive GoError where
  | driver (msg : String)
  | errorf (msg : String)
  deriving DecidableEq, Repr

/-- A bind argument (`interface{}`); it is only passed through to the driver. -/
inductive Arg where
  | str (s : String)
  | int (i : Int)
  deriving DecidableEq, Repr

/-- One row of a result, `[]string`. -/
abbrev Row := List String

/-- The result table, `[][]string`. -/
abbrev Table := List Row

/-- A row the cursor is positioned on.  `Scan n` is the answer of
`rows.Scan` called with `n` destination pointers: an error, or the text
stored through the `i`-th pointer. -/
structure RowData where
  Scan : Nat → Except GoError (Nat → String)

/-- The cursor `*sql.Rows`.  `Columns` is the pair `rows.Columns()` returns,
`pending` the rows that successive calls of `rows.Next()` still yield,
`iterErr` what `rows.Err()` reports once `Next` has returned false, and
`closed` whether `rows.Close()` has been called. -/
structure Rows where
  Columns : List String × Option GoError
  pending : List RowData
  iterErr : Option GoError
  closed : Bool

/-- The call `rows.Close()`. -/
def Rows.Close (rows : Rows) : Rows := { rows with closed := true }

/-- The handle `*sql.DB`, as far as the query helpers use it: `db.Query`
returns a cursor or an error. -/
structure DB where
  Query : String → List Arg → Except GoError Rows

/-- The `%d` verb of `fmt` applied to a length. -/
def fmtD (n : Nat) : String := Nat.repr n

/-! ## GetRows (lines 79-101) -/

/-- Lines 90-94: `writeCols := make([]string, len(colNames))`, whose cells
are the destinations handed to `Scan`; after a successful scan cell `i`
holds what was stored through pointer `i`. -/
def writeColsAfter (colNames : List String) (written : Nat → String) : Row :=
  (List.range colNames.length).map written

/-- The loop `for rows.Next() { ... }` of lines 87-99, run over the rows the
cursor still yields.  It returns the pair GetRows returns and the rows left
unread in the cursor. -/
def GetRows.loop (colNames : List String) :
    List RowData → Table → (Table × Option GoError) × List RowData
  | [], res => ((res, none), [])
  | row :: rest, res =>
    match row.Scan colNames.length with
    | .error err => (([], some err), rest)
    | .ok written => GetRows.loop colNames rest (res ++ [writeColsAfter colNames written])

/-- The body of GetRows together with the cursor as it is left when the
function returns (`none` when `db.Query` failed and no cursor was obtained).
The deferred `rows.Close()` of line 85 runs on every return after it. -/
def GetRows.run (db : DB) (query : String) (args : List Arg) :
    (Table × Option GoError) × Option Rows :=
  match db.Query query args with
  | .error err => (([], some err), none)
  | .ok rows =>
    let colNames := rows.Columns.1
    let out := GetRows.loop colNames rows.pending []
    (out.1, some ({ rows with pending := out.2 }).Close)

/-- The function `GetRows(db, query, args...)`. -/
def GetRows (db : DB) (query : String) (args : List Arg) : Table × Option GoError :=
  (GetRows.run db query args).1

/-! ## GetRow, GetColumn, GetValue (lines 103-144) -/

/-- Lines 108-114 of GetRow, on the table `ss` GetRows returned. -/
def GetRow.body (ss : Table) : Row × Option GoError :=
  if ss.length = 0 then ([], none)
  else if h : ss.length = 1 then (ss[0], none)
  else ([], some (.errorf
    ("GetRow error: fetched " ++ fmtD ss.length ++ " results, expected 0 or 1")))

/-- The function `GetRow(db, query, args...)`. -/
def GetRow (db : DB) (query : String) (args : List Arg) : Row × Option GoError :=
  match GetRows db query args with
  | (_, some err) => ([], some err)
  | (ss, none) => GetRow.body ss

/-- The loop of lines 128-130.  `none` is the run-time panic of `row[0]` on
a row without values. -/
def GetColumn.loop : Table → List String → Option (List String)
  | [], res => some res
  | row :: rest, res =>
    match row[0]? with
    | none => none
    | some v => GetColumn.loop rest (res ++ [v])

/-- Lines 122-132 of GetColumn, on the table `ss` GetRows returned; `none`
is a run-time panic (index out of range), otherwise the returned pair. -/
def GetColumn.body (ss : Table) : Option (List String × Option GoError) :=
  if h : ss.length = 0 then some ([], none)
  else if (ss[0]).length ≠ 1 then
    some ([], some (.errorf
      ("GetColumn error: query returns " ++ fmtD (ss[0]).length ++ " columns, expected 1")))
  else
    match GetColumn.loop ss [] with
    | none => none
    | some res => some (res, none)

/-- The function `GetColumn(db, query, args...)`. -/
def GetColumn (db : DB) (query : String) (args : List Arg) :
    Option (List String × Option GoError) :=
  match GetRows db query args with
  | (_, some err) => some ([], some err)
  | (ss, none) => GetColumn.body ss

/-- Lines 140-143 of GetValue, on the row `s` GetRow returned. -/
def GetValue.body (s : Row) : String × Option GoError :=
  if h : s.length ≠ 1 then
    ("", some (.errorf
      ("GetValue error: query returned " ++ fmtD s.length ++ " items, expected 1")))
  else (s[0], none)

/-- The function `GetValue(db, query, args...)`. -/
def GetValue (db : DB) (query : String) (args : List Arg) : String × Option GoError :=
  match GetRow db query args with
  | (_, some err) => ("", some err)
  | (s, none) => GetValue.body s

/-! ## Schema helpers (lines 146-172) -/

/-- The query text of TableIndices, lines 147-152. -/
def TableIndices.query : String :=
  "SELECT relname FROM pg_class WHERE oid IN ( \n" ++
  "        SELECT indexrelid FROM pg_index, pg_class\n" ++
  "        WHERE pg_class.relname=$1\n" ++
  "        AND pg_class.oid=pg_index.indrelid\n" ++
  "        AND indisunique != 't'\n" ++
  "        AND indisprimary != 't')"

/-- The function `TableIndices(db, tableName)`; `none` is a run-time panic
inherited from GetColumn. -/
def TableIndices (db : DB) (tableName : String) : Option (List String × Option GoError) :=
  match GetColumn db TableIndices.query [Arg.str tableName] with
  | none => none
  | some (_, some err) => some ([], some err)
  | some (indices, none) => some (indices, none)

/-- The query text of TableExists, line 160. -/
def TableExists.query : String :=
  "SELECT count(*) FROM information_schema.tables WHERE table_schema = 'public' AND table_name = $1"

/-- The function `TableExists(db, tableName)`. -/
def TableExists (db : DB) (tableName : String) : Bool × Option GoError :=
  match GetValue db TableExists.query [Arg.str tableName] with
  | (_, some err) => (false, some err)
  | (v, none) =>
    if v ≠ "0" ∧ v ≠ "1" then
      (false, some (.errorf
        ("pgTableExists error: query returned " ++ v ++ ", expected '0' or '1'")))
    else (decide (v = "1"), none)

/-- The query text of GetTables, line 171. -/
def GetTables.query : String :=
  "SELECT table_name FROM information_schema.tables WHERE table_schema = 'public'"

/-- The function `GetTables(db)`. -/
def GetTables (db : DB) : Option (List String × Option GoError) :=
  GetColumn db GetTables.query []

/-! ## Rendering (lines 66-76) -/

/-- The function `AsLine(t)`: `strings.Join(t, "\t")`. -/
def AsLine (t : Row) : String := String.intercalate "\t" t

/-- The function `AsTable(t)`: the loop of lines 72-74 over a running `res`. -/
def AsTable.loop : Table → String → String
  | [], res => res
  | r :: rest, res => AsTable.loop rest (res ++ (AsLine r ++ "\n"))

/-- The function `AsTable(t)`. -/
def AsTable (t : Table) : String := AsTable.loop t ""

/-! ## Opening, creating and dropping databases (lines 10-64)

The server side is a collaborator: `Srv σ H` says what `sql.Open`, `db.Exec`
and `db.Close` answer in a server state `σ`, for handles of type `H`.
Standard output is kept beside the server state. -/

/-- The driver and server as seen through `sql.Open`, `db.Exec`, `db.Close`. -/
structure Srv (σ H : Type) where
  Open : String → σ → Except GoError H × σ
  Exec : H → String → σ → Option GoError × σ
  Close : H → σ → σ

/-- The state a call runs in: the server state and what was printed so far. -/
structure World (σ : Type) where
  srv : σ
  stdout : List String

/-- The text of an error, as `%v` prints it. -/
def GoError.Error : GoError → String
  | .driver msg => msg
  | .errorf msg => msg

/-- The call `fmt.Printf` with its formatted text. -/
def World.Printf {σ : Type} (w : World σ) (text : String) : World σ :=
  { w with stdout := w.stdout ++ [text] }

/-- The data source name of line 25. -/
def dataSourceName (dbname : String) : String :=
  "host=/var/run/postgresql sslmode=disable dbname=" ++ dbname

/-- The function `OpenDb(dbname)`. -/
def OpenDb {σ H : Type} (S : Srv σ H) (dbname : String) (w : World σ) :
    Except GoError H × World σ :=
  let r := S.Open (dataSourceName dbname) w.srv
  (r.1, { w with srv := r.2 })

/-- The function `DropDb(dbname)`; the deferred `db.Close()` of line 34 runs
on both returns after it. -/
def DropDb {σ H : Type} (S : Srv σ H) (dbname : String) (w : World σ) :
    Option GoError × World σ :=
  match OpenDb S "postgres" w with
  | (.error err, w1) => (some err, w1)
  | (.ok db, w1) =>
    let r := S.Exec db ("drop database " ++ dbname) w1.srv
    let w2 : World σ := { w1 with srv := r.2 }
    match r.1 with
    | some err =>
      let w3 := w2.Printf ("ERR " ++ err.Error ++ "\n")
      (some err, { w3 with srv := S.Close db w3.srv })
    | none => (none, { w2 with srv := S.Close db w2.srv })

/-- Lines 55-61 of CreateDb: the create statement and the line it prints.
The error of the statement is printed and dropped. -/
def CreateDb.create {σ H : Type} (S : Srv σ H) (db : H) (dbname : String) (w : World σ) :
    World σ :=
  let r := S.Exec db ("create database " ++ dbname) w.srv
  let w2 : World σ := { w with srv := r.2 }
  match r.1 with
  | some err => w2.Printf (err.Error ++ "\n")
  | none => w2.Printf (dbname ++ " database created\n")

/-- The function `CreateDb(dbname)`; the deferred `db.Close()` of line 53
runs after `OpenDb(dbname)` of line 63 has been evaluated. -/
def CreateDb {σ H : Type} (S : Srv σ H) (dbname : String) (w : World σ) :
    Except GoError H × World σ :=
  match OpenDb S "postgres" w with
  | (.error err, w1) => (.error err, w1)
  | (.ok db, w1) =>
    let w3 := CreateDb.create S db dbname w1
    let r := OpenDb S dbname w3
    (r.1, { r.2 with srv := S.Close db r.2.srv })

/-! ## Auxiliary definitions and concrete drivers used to evaluate the code -/

/-- The row a successful scan of `row` appends to the table (`[]` when the
scan fails; the loop never appends then). -/
def scannedRow (colNames : List String) (row : RowData) : Row :=
  match row.Scan colNames.length with
  | .ok written => writeColsAfter colNames written
  | .error _ => []

/-- A row of text cells that scans the way `database/sql` does: into exactly
as many destinations as it has cells. -/
def textRow (vals : List String) : RowData where
  Scan n :=
    if n = vals.length then .ok (fun i => vals.getD i "")
    else .error (.driver "sql: wrong number of destination arguments in Scan")

/-- A row whose scan fails with the given driver message. -/
def badRow (msg : String) : RowData where
  Scan _ := .error (.driver msg)

/-- A fresh cursor with the given column names and rows. -/
def cursorOf (cols : List String) (rows : List RowData) : Rows where
  Columns := (cols, none)
  pending := rows
  iterErr := none
  closed := false

/-- A handle that answers every query with `r`. -/
def constDB (r : Except GoError Rows) : DB where
  Query _ _ := r

/-- A cursor that yields the given rows and then stops because the driver
failed while fetching the next one: `rows.Next()` returns false and
`rows.Err()` holds `err`. -/
def brokenCursor (cols : List String) (rows : List RowData) (err : GoError) : Rows where
  Columns := (cols, none)
  pending := rows
  iterErr := some err
  closed := false

/-- A cursor without rows whose `rows.Columns()` fails with `err`. -/
def namelessCursor (err : GoError) : Rows where
  Columns := ([], some err)
  pending := []
  iterErr := none
  closed := false

/-- A server holding at most the database `shop`; the state says whether it
exists.  `sql.Open` always answers with a handle (the data source name),
and `create database shop` fails when the database is there already. -/
def shopServer : Srv Bool String where
  Open dsn s := (.ok dsn, s)
  Exec _ stmt s :=
    if stmt = "create database shop" then
      if s then (some (.driver "pq: database \"shop\" already exists"), s) else (none, true)
    else (none, s)
  Close _ s := s

/-- The number of newline characters (code 10) in a text. -/
def newlines (s : String) : Nat := s.data.count (Char.ofNat 10)

/-! ## GetRows with its buffers made explicit

In the source a row of the table is a slice: a reference to the backing
array that `make` allocated for `writeCols`, and `Scan` writes into that
array through pointers.  Here the arrays live in a store, in allocation
order, and a slice is the index of its array. -/

/-- The backing arrays allocated so far. -/
abbrev Store := List Row

/-- The table a list of slices denotes in a store. -/
def Store.table (st : Store) (res : List Nat) : Table :=
  res.map (fun a => st.getD a [])

/-- The loop of lines 87-99 over a store: line 91 allocates a new array of
`len(colNames)` empty strings in every iteration, line 95 writes the scanned
texts into it, and line 98 appends the slice to `res`. -/
def GetRows.loopStore (colNames : List String) :
    List RowData → Store → List Nat → (List Nat × Option GoError) × Store
  | [], st, res => ((res, none), st)
  | row :: rest, st, res =>
    let writeCols := st.length
    let st1 := st ++ [List.replicate colNames.length ""]
    match row.Scan colNames.length with
    | .error err => (([], some err), st1)
    | .ok written =>
      GetRows.loopStore colNames rest
        (st1.set writeCols (writeColsAfter colNames written)) (res ++ [writeCols])

/-! ## Lemmas on the row loop of GetRows -/

theorem writeColsAfter_length (colNames : List String) (written : Nat → String) :
    (writeColsAfter colNames written).length = colNames.length := by
  simp [writeColsAfter]

theorem GetRows.loop_all_ok (colNames : List String) (pend : List RowData)
    (h : ∀ row ∈ pend, ∃ written, row.Scan colNames.length = .ok written) (res : Table) :
    GetRows.loop colNames pend res = ((res ++ pend.map (scannedRow colNames), none), []) := by
  induction pend generalizing res with
  | nil => simp [GetRows.loop]
  | cons row rest ih =>
    obtain ⟨written, hw⟩ := h row (List.mem_cons_self _ _)
    have hrest : ∀ r ∈ rest, ∃ w, r.Scan colNames.length = .ok w :=
      fun r hr => h r (List.mem_cons_of_mem _ hr)
    simp [GetRows.loop, hw, ih hrest, scannedRow]

theorem GetRows.loop_first_error (colNames : List String) (pre post : List RowData)
    (row : RowData) (err : GoError)
    (hpre : ∀ r ∈ pre, ∃ written, r.Scan colNames.length = .ok written)
    (hrow : row.Scan colNames.length = .error err) (res : Table) :
    GetRows.loop colNames (pre ++ row :: post) res = (([], some err), post) := by
  induction pre generalizing res with
  | nil => simp [GetRows.loop, hrow]
  | cons r rest ih =>
    obtain ⟨written, hw⟩ := hpre r (List.mem_cons_self _ _)
    have hrest : ∀ x ∈ rest, ∃ w, x.Scan colNames.length = .ok w :=
      fun x hx => hpre x (List.mem_cons_of_mem _ hx)
    simp [GetRows.loop, hw, ih hrest]

theorem GetRows.loop_widths (colNames : List String) (pend : List RowData) (res : Table)
    (hres : ∀ r ∈ res, r.length = colNames.length) :
    ∀ r ∈ (GetRows.loop colNames pend res).1.1, r.length = colNames.length := by
  induction pend generalizing res with
  | nil => simpa [GetRows.loop] using hres
  | cons row rest ih =>
    cases hs : row.Scan colNames.length with
    | error err => simp [GetRows.loop, hs]
    | ok written =>
      simp only [GetRows.loop, hs]
      apply ih
      intro r hr
      rcases List.mem_append.mp hr with h | h
      · exact hres r h
      · simp only [List.mem_singleton] at h
        rw [h, writeColsAfter_length]

theorem scannedRow_length (colNames : List String) (row : RowData)
    (h : ∃ written, row.Scan colNames.length = .ok written) :
    (scannedRow colNames row).length = colNames.length := by
  obtain ⟨written, hw⟩ := h
  simp [scannedRow, hw, writeColsAfter_length]

theorem GetRows_of_query_ok (db : DB) (query : String) (args : List Arg) (rows : Rows)
    (hq : db.Query query args = .ok rows) :
    GetRows db query args = (GetRows.loop rows.Columns.1 rows.pending []).1 := by
  simp [GetRows, GetRows.run, hq]

theorem GetRows_of_query_error (db : DB) (query : String) (args : List Arg) (err : GoError)
    (hq : db.Query query args = .error err) :
    GetRows db query args = ([], some err) := by
  simp [GetRows, GetRows.run, hq]

/-- Every table GetRows returns has rows of one width, the number of column
names the cursor reported. -/
theorem GetRows_widths (db : DB) (query : String) (args : List Arg) (rows : Rows)
    (hq : db.Query query args = .ok rows) :
    ∀ r ∈ (GetRows db query args).1, r.length = rows.Columns.1.length := by
  rw [GetRows_of_query_ok db query args rows hq]
  exact GetRows.loop_widths _ _ [] (by simp)

/-! ## C1 -/

/-- C1: when the query executes with `M` column names and the cursor yields
`N` rows that all scan, GetRows returns no error and a table of exactly `N`
rows, each of length `M`. -/
theorem GetRows_rectangular (db : DB) (query : String) (args : List Arg) (rows : Rows)
    (M N : Nat) (hq : db.Query query args = .ok rows)
    (hM : rows.Columns.1.length = M) (hN : rows.pending.length = N)
    (hscan : ∀ row ∈ rows.pending, ∃ written, row.Scan M = .ok written) :
    ∃ t : Table, GetRows db query args = (t, none) ∧ t.length = N ∧
      ∀ r ∈ t, r.length = M := by
  subst hM hN
  refine ⟨rows.pending.map (scannedRow rows.Columns.1), ?_, by simp, ?_⟩
  · rw [GetRows_of_query_ok db query args rows hq, GetRows.loop_all_ok _ _ hscan]
    simp
  · intro r hr
    obtain ⟨row, hrow, rfl⟩ := List.mem_map.mp hr
    exact scannedRow_length _ _ (hscan row hrow)

theorem GetRows_rectangular_witness :
    ∃ t : Table,
      GetRows (constDB (.ok (cursorOf ["a", "b"] [textRow ["1", "2"], textRow ["3", "4"],
        textRow ["5", "6"]]))) "q" [] = (t, none) ∧ t.length = 3 ∧ ∀ r ∈ t, r.length = 2 :=
  GetRows_rectangular _ "q" [] (cursorOf ["a", "b"] [textRow ["1", "2"], textRow ["3", "4"],
    textRow ["5", "6"]]) 2 3 rfl rfl rfl (by
      intro row hrow
      simp only [cursorOf, List.mem_cons, List.mem_singleton, List.not_mem_nil, or_false] at hrow
      rcases hrow with h | h | h <;> subst h <;> exact ⟨_, rfl⟩)

/-! ## Lemmas on the narrowing helpers -/

theorem GetRow_eq_body (db : DB) (query : String) (args : List Arg) (t : Table)
    (ht : GetRows db query args = (t, none)) :
    GetRow db query args = GetRow.body t := by
  simp [GetRow, ht]

theorem GetColumn_eq_body (db : DB) (query : String) (args : List Arg) (t : Table)
    (ht : GetRows db query args = (t, none)) :
    GetColumn db query args = GetColumn.body t := by
  simp [GetColumn, ht]

theorem GetRow.body_many (t : Table) (h : 2 ≤ t.length) :
    GetRow.body t = ([], some (.errorf
      ("GetRow error: fetched " ++ fmtD t.length ++ " results, expected 0 or 1"))) := by
  have h0 : ¬ t.length = 0 := by omega
  have h1 : ¬ t.length = 1 := by omega
  simp [GetRow.body, h0, h1]

theorem GetValue_eq_of_row (db : DB) (query : String) (args : List Arg) (s : Row)
    (hs : GetRow db query args = (s, none)) :
    GetValue db query args = GetValue.body s := by
  simp [GetValue, hs]

theorem GetValue_eq_of_error (db : DB) (query : String) (args : List Arg) (s : Row)
    (err : GoError) (hs : GetRow db query args = (s, some err)) :
    GetValue db query args = ("", some err) := by
  simp [GetValue, hs]

theorem GetColumn.loop_width_one (t : Table) (h : ∀ r ∈ t, r.length = 1) (res : List String) :
    ∃ col : List String, GetColumn.loop t res = some (res ++ col) ∧
      t = col.map (fun v => [v]) := by
  induction t generalizing res with
  | nil => exact ⟨[], by simp [GetColumn.loop], rfl⟩
  | cons r rest ih =>
    have hr : r.length = 1 := h r (List.mem_cons_self _ _)
    obtain ⟨v, rfl⟩ := List.length_eq_one.mp hr
    obtain ⟨col, hcol, hmap⟩ := ih (fun x hx => h x (List.mem_cons_of_mem _ hx)) (res ++ [v])
    refine ⟨v :: col, ?_, ?_⟩
    · simp [GetColumn.loop, hcol]
    · simp [← hmap]

/-- The table GetRows returned without error came from a cursor, and all its
rows have the width of that cursor's column names. -/
theorem GetRows_ok_widths (db : DB) (query : String) (args : List Arg) (t : Table)
    (ht : GetRows db query args = (t, none)) :
    ∃ M : Nat, ∀ r ∈ t, r.length = M := by
  cases hq : db.Query query args with
  | error err =>
    rw [GetRows_of_query_error db query args err hq] at ht
    simp at ht
  | ok rows =>
    refine ⟨rows.Columns.1.length, ?_⟩
    have := GetRows_widths db query args rows hq
    rw [ht] at this
    exact this

/-! ## C2 -/

/-- C2: on a table GetRows returned, GetRow gives an empty row for 0 rows,
the row itself for exactly 1 row, and for `N ≥ 2` rows no row and the error
`GetRow error: fetched N results, expected 0 or 1`. -/
theorem GetRow_of_table (db : DB) (query : String) (args : List Arg) (t : Table)
    (ht : GetRows db query args = (t, none)) :
    (t.length = 0 → GetRow db query args = ([], none)) ∧
    (∀ r : Row, t = [r] → GetRow db query args = (r, none)) ∧
    (2 ≤ t.length → GetRow db query args = ([], some (.errorf
      ("GetRow error: fetched " ++ fmtD t.length ++ " results, expected 0 or 1")))) := by
  rw [GetRow_eq_body db query args t ht]
  refine ⟨?_, ?_, GetRow.body_many t⟩
  · intro h
    simp [GetRow.body, h]
  · rintro r rfl
    simp [GetRow.body]

theorem GetRow_of_table_witness :
    GetRow (constDB (.ok (cursorOf ["a"] [textRow ["x"], textRow ["y"], textRow ["z"]]))) "q" []
      = ([], some (.errorf "GetRow error: fetched 3 results, expected 0 or 1")) ∧
    GetRow (constDB (.ok (cursorOf ["a", "b"] [textRow ["x", "y"]]))) "q" []
      = (["x", "y"], none) :=
  ⟨(GetRow_of_table (constDB (.ok (cursorOf ["a"] [textRow ["x"], textRow ["y"],
      textRow ["z"]]))) "q" [] [["x"], ["y"], ["z"]] (by decide)).2.2 (by decide),
   (GetRow_of_table (constDB (.ok (cursorOf ["a", "b"] [textRow ["x", "y"]]))) "q" []
      [["x", "y"]] (by decide)).2.1 ["x", "y"] rfl⟩

/-! ## C3 -/

/-- C3: on a table GetRows returned, GetValue succeeds exactly when the
table is one row of one value, and then returns that value; on 0 rows and on
a single row of `k ≠ 1` values the error reports `k` items, expected 1; on 2
or more rows it fails with the error of GetRow. -/
theorem GetValue_of_table (db : DB) (query : String) (args : List Arg) (t : Table)
    (ht : GetRows db query args = (t, none)) :
    ((GetValue db query args).2 = none ↔ ∃ v : String, t = [[v]]) ∧
    (∀ v : String, t = [[v]] → GetValue db query args = (v, none)) ∧
    (t = [] → GetValue db query args = ("", some (.errorf
      ("GetValue error: query returned " ++ fmtD 0 ++ " items, expected 1")))) ∧
    (∀ r : Row, t = [r] → r.length ≠ 1 → GetValue db query args = ("", some (.errorf
      ("GetValue error: query returned " ++ fmtD r.length ++ " items, expected 1")))) ∧
    (2 ≤ t.length → GetValue db query args = ("", some (.errorf
      ("GetRow error: fetched " ++ fmtD t.length ++ " results, expected 0 or 1")))) := by
  have hrow := GetRow_eq_body db query args t ht
  have hone : ∀ v : String, t = [[v]] → GetValue db query args = (v, none) := by
    rintro v rfl
    rw [GetValue_eq_of_row db query args [v] (by rw [hrow]; simp [GetRow.body])]
    simp [GetValue.body]
  have hzero : t = [] → GetValue db query args = ("", some (.errorf
      ("GetValue error: query returned " ++ fmtD 0 ++ " items, expected 1"))) := by
    rintro rfl
    rw [GetValue_eq_of_row db query args [] (by rw [hrow]; simp [GetRow.body])]
    simp [GetValue.body]
  have hk : ∀ r : Row, t = [r] → r.length ≠ 1 → GetValue db query args = ("", some (.errorf
      ("GetValue error: query returned " ++ fmtD r.length ++ " items, expected 1"))) := by
    rintro r rfl hr
    rw [GetValue_eq_of_row db query args r (by rw [hrow]; simp [GetRow.body])]
    simp [GetValue.body, hr]
  have hmany : 2 ≤ t.length → GetValue db query args = ("", some (.errorf
      ("GetRow error: fetched " ++ fmtD t.length ++ " results, expected 0 or 1"))) := by
    intro h
    exact GetValue_eq_of_error db query args [] _ (by rw [hrow, GetRow.body_many t h])
  refine ⟨⟨?_, ?_⟩, hone, hzero, hk, hmany⟩
  · intro hnone
    match t, hone, hzero, hk, hmany with
    | [], _, hzero, _, _ => rw [hzero rfl] at hnone; simp at hnone
    | [r], _, _, hk, _ =>
      by_cases hr : r.length = 1
      · obtain ⟨v, rfl⟩ := List.length_eq_one.mp hr
        exact ⟨v, rfl⟩
      · rw [hk r rfl hr] at hnone; simp at hnone
    | _ :: _ :: _, _, _, _, hmany => rw [hmany (by simp)] at hnone; simp at hnone
  · rintro ⟨v, hv⟩
    rw [hone v hv]

theorem GetValue_of_table_witness :
    GetValue (constDB (.ok (cursorOf ["count"] [textRow ["3"]]))) "q" [] = ("3", none) ∧
    GetValue (constDB (.ok (cursorOf ["a", "b"] [textRow ["x", "y"]]))) "q" []
      = ("", some (.errorf "GetValue error: query returned 2 items, expected 1")) ∧
    GetValue (constDB (.ok (cursorOf ["a"] []))) "q" []
      = ("", some (.errorf "GetValue error: query returned 0 items, expected 1")) :=
  ⟨(GetValue_of_table (constDB (.ok (cursorOf ["count"] [textRow ["3"]]))) "q" []
      [["3"]] (by decide)).2.1 "3" rfl,
   (GetValue_of_table (constDB (.ok (cursorOf ["a", "b"] [textRow ["x", "y"]]))) "q" []
      [["x", "y"]] (by decide)).2.2.2.1 ["x", "y"] rfl (by decide),
   (GetValue_of_table (constDB (.ok (cursorOf ["a"] []))) "q" []
      [] (by decide)).2.2.1 rfl⟩

/-! ## C4 -/

/-- C4: on a table GetRows returned, if some row has width different from 1
then GetColumn does not panic and returns no column but the error
`GetColumn error: query returns k columns, expected 1`, where `k` is the
width of every row of the table. -/
theorem GetColumn_wrong_width (db : DB) (query : String) (args : List Arg) (t : Table)
    (ht : GetRows db query args = (t, none)) (hbad : ∃ r ∈ t, r.length ≠ 1) :
    ∃ k : Nat, k ≠ 1 ∧ (∀ r ∈ t, r.length = k) ∧
      GetColumn db query args = some ([], some (.errorf
        ("GetColumn error: query returns " ++ fmtD k ++ " columns, expected 1"))) := by
  obtain ⟨M, hM⟩ := GetRows_ok_widths db query args t ht
  obtain ⟨r, hr, hne⟩ := hbad
  have hM1 : M ≠ 1 := by
    rw [← hM r hr]
    exact hne
  refine ⟨M, hM1, hM, ?_⟩
  rw [GetColumn_eq_body db query args t ht]
  match t, hM, hr with
  | r0 :: rest, hM, _ =>
    have h0 : r0.length = M := hM r0 (List.mem_cons_self _ _)
    simp [GetColumn.body, h0, hM1]

theorem GetColumn_wrong_width_witness :
    ∃ k : Nat, k ≠ 1 ∧ (∀ r ∈ [["x", "y"], ["u", "v"]], r.length = k) ∧
      GetColumn (constDB (.ok (cursorOf ["a", "b"] [textRow ["x", "y"], textRow ["u", "v"]])))
        "q" [] = some ([], some (.errorf
          ("GetColumn error: query returns " ++ fmtD k ++ " columns, expected 1"))) :=
  GetColumn_wrong_width (constDB (.ok (cursorOf ["a", "b"] [textRow ["x", "y"],
    textRow ["u", "v"]]))) "q" [] [["x", "y"], ["u", "v"]] (by decide)
    ⟨["x", "y"], by simp, by decide⟩

/-! ## C5 -/

/-- C5: on a table GetRows returned in which every row has width 1,
GetColumn returns no error and the column of the rows' sole values in row
order: as long as the table, its `i`-th element the one value of the `i`-th
row; for the table without rows the column is empty. -/
theorem GetColumn_width_one (db : DB) (query : String) (args : List Arg) (t : Table)
    (ht : GetRows db query args = (t, none)) (hone : ∀ r ∈ t, r.length = 1) :
    ∃ col : List String, GetColumn db query args = some (col, none) ∧
      col.length = t.length ∧
      (∀ (i : Nat) (v : String), col[i]? = some v → t[i]? = some [v]) ∧
      t = col.map (fun v => [v]) ∧
      (t = [] → col = []) := by
  obtain ⟨col, hloop, hmap⟩ := GetColumn.loop_width_one t hone []
  have hbody : GetColumn.body t = some (col, none) := by
    match t, hone, hloop, hmap with
    | [], _, _, hmap =>
      have : col = [] := by
        cases col with
        | nil => rfl
        | cons a l => simp at hmap
      simp [GetColumn.body, this]
    | r0 :: rest, hone, hloop, _ =>
      have h0 : r0.length = 1 := hone r0 (List.mem_cons_self _ _)
      simp only [List.nil_append] at hloop
      simp [GetColumn.body, h0, hloop]
  refine ⟨col, ?_, ?_, ?_, hmap, ?_⟩
  · rw [GetColumn_eq_body db query args t ht, hbody]
  · rw [hmap, List.length_map]
  · intro i v hv
    rw [hmap, List.getElem?_map, hv]
    rfl
  · intro ht0
    rw [ht0] at hmap
    cases col with
    | nil => rfl
    | cons a l => simp at hmap

theorem GetColumn_width_one_witness :
    ∃ col : List String,
      GetColumn (constDB (.ok (cursorOf ["name"] [textRow ["n1"], textRow ["n2"],
        textRow ["n3"]]))) "q" [] = some (col, none) ∧
      col.length = [["n1"], ["n2"], ["n3"]].length ∧
      (∀ (i : Nat) (v : String), col[i]? = some v →
        [["n1"], ["n2"], ["n3"]][i]? = some [v]) ∧
      [["n1"], ["n2"], ["n3"]] = col.map (fun v => [v]) ∧
      (([["n1"], ["n2"], ["n3"]] : Table) = [] → col = []) :=
  GetColumn_width_one (constDB (.ok (cursorOf ["name"] [textRow ["n1"], textRow ["n2"],
    textRow ["n3"]]))) "q" [] [["n1"], ["n2"], ["n3"]] (by decide) (by decide)

/-! ## C6 -/

theorem GetRows.loop_some_error (colNames : List String) (pend : List RowData)
    (h : ∃ row ∈ pend, ∃ e, row.Scan colNames.length = .error e) (res : Table) :
    ∃ row ∈ pend, ∃ err, row.Scan colNames.length = .error err ∧
      (GetRows.loop colNames pend res).1 = ([], some err) := by
  induction pend generalizing res with
  | nil =>
    obtain ⟨row, hrow, _⟩ := h
    simp at hrow
  | cons r rest ih =>
    cases hs : r.Scan colNames.length with
    | error err =>
      exact ⟨r, List.mem_cons_self _ _, err, hs, by simp [GetRows.loop, hs]⟩
    | ok written =>
      have hrest : ∃ row ∈ rest, ∃ e, row.Scan colNames.length = .error e := by
        obtain ⟨row, hrow, e, he⟩ := h
        rcases List.mem_cons.mp hrow with heq | hmem
        · subst heq
          rw [hs] at he
          cases he
        · exact ⟨row, hmem, e, he⟩
      obtain ⟨row, hrow, err, herr, hloop⟩ :=
        ih hrest (res ++ [writeColsAfter colNames written])
      exact ⟨row, List.mem_cons_of_mem _ hrow, err, herr, by simp [GetRows.loop, hs, hloop]⟩

/-- C6: GetRows returns the error of `db.Query` and no table when the query
fails; when a row fails to scan it returns that scan error (the one of the
first row that fails) and no table, whatever rows were read before; when the
query executes and the cursor yields no row it returns the empty table and
no error. -/
theorem GetRows_failure (db : DB) (query : String) (args : List Arg) :
    (∀ err : GoError, db.Query query args = .error err →
      GetRows db query args = ([], some err)) ∧
    (∀ rows : Rows, db.Query query args = .ok rows →
      (∃ row ∈ rows.pending, ∃ e, row.Scan rows.Columns.1.length = .error e) →
      ∃ row ∈ rows.pending, ∃ err, row.Scan rows.Columns.1.length = .error err ∧
        GetRows db query args = ([], some err)) ∧
    (∀ (rows : Rows) (pre post : List RowData) (row : RowData) (err : GoError),
      db.Query query args = .ok rows → rows.pending = pre ++ row :: post →
      (∀ r ∈ pre, ∃ written, r.Scan rows.Columns.1.length = .ok written) →
      row.Scan rows.Columns.1.length = .error err →
      GetRows db query args = ([], some err)) ∧
    (∀ rows : Rows, db.Query query args = .ok rows → rows.pending = [] →
      GetRows db query args = ([], none)) := by
  refine ⟨GetRows_of_query_error db query args, ?_, ?_, ?_⟩
  · intro rows hq hbad
    rw [GetRows_of_query_ok db query args rows hq]
    exact GetRows.loop_some_error _ _ hbad []
  · intro rows pre post row err hq hsplit hpre hrow
    rw [GetRows_of_query_ok db query args rows hq, hsplit,
      GetRows.loop_first_error _ pre post row err hpre hrow]
  · intro rows hq hnil
    rw [GetRows_of_query_ok db query args rows hq, hnil]
    rfl

theorem GetRows_failure_witness :
    GetRows (constDB (.ok (cursorOf ["a"] [textRow ["x"], badRow "pq: bad value",
      textRow ["z"]]))) "q" [] = ([], some (.driver "pq: bad value")) ∧
    GetRows (constDB (.error (.driver "pq: syntax error"))) "q" []
      = ([], some (.driver "pq: syntax error")) ∧
    GetRows (constDB (.ok (cursorOf ["a"] []))) "q" [] = ([], none) :=
  ⟨(GetRows_failure (constDB (.ok (cursorOf ["a"] [textRow ["x"], badRow "pq: bad value",
      textRow ["z"]]))) "q" []).2.2.1 _ [textRow ["x"]] [textRow ["z"]]
      (badRow "pq: bad value") (.driver "pq: bad value") rfl rfl
      (by
        intro r hr
        simp only [List.mem_singleton] at hr
        subst hr
        exact ⟨_, rfl⟩) rfl,
   (GetRows_failure (constDB (.error (.driver "pq: syntax error"))) "q" []).1 _ rfl,
   (GetRows_failure (constDB (.ok (cursorOf ["a"] []))) "q" []).2.2.2 _ rfl rfl⟩

/-! ## C7 -/

/-- C7: when GetRows fails with error `e`, GetRow, GetColumn and GetValue on
the same query return no data and that same `e`; so do TableIndices,
GetTables and TableExists when GetRows fails on their query. -/
theorem driver_failure_propagates (db : DB) (e : GoError) :
    (∀ (query : String) (args : List Arg) (t : Table),
      GetRows db query args = (t, some e) →
        GetRow db query args = ([], some e) ∧
        GetColumn db query args = some ([], some e) ∧
        GetValue db query args = ("", some e)) ∧
    (∀ (tableName : String) (t : Table),
      GetRows db TableIndices.query [Arg.str tableName] = (t, some e) →
        TableIndices db tableName = some ([], some e)) ∧
    (∀ t : Table, GetRows db GetTables.query [] = (t, some e) →
        GetTables db = some ([], some e)) ∧
    (∀ (tableName : String) (t : Table),
      GetRows db TableExists.query [Arg.str tableName] = (t, some e) →
        TableExists db tableName = (false, some e)) := by
  have hrow : ∀ (query : String) (args : List Arg) (t : Table),
      GetRows db query args = (t, some e) → GetRow db query args = ([], some e) := by
    intro query args t h
    simp [GetRow, h]
  have hcol : ∀ (query : String) (args : List Arg) (t : Table),
      GetRows db query args = (t, some e) → GetColumn db query args = some ([], some e) := by
    intro query args t h
    simp [GetColumn, h]
  have hval : ∀ (query : String) (args : List Arg) (t : Table),
      GetRows db query args = (t, some e) → GetValue db query args = ("", some e) := by
    intro query args t h
    simp [GetValue, hrow query args t h]
  refine ⟨fun query args t h => ⟨hrow query args t h, hcol query args t h,
    hval query args t h⟩, ?_, ?_, ?_⟩
  · intro tableName t h
    simp [TableIndices, hcol _ _ t h]
  · intro t h
    simp [GetTables, hcol _ _ t h]
  · intro tableName t h
    simp [TableExists, hval _ _ t h]

theorem driver_failure_propagates_witness :
    (GetRow (constDB (.error (.driver "pq: connection refused"))) "select 1" []
        = ([], some (.driver "pq: connection refused")) ∧
      GetColumn (constDB (.error (.driver "pq: connection refused"))) "select 1" []
        = some ([], some (.driver "pq: connection refused")) ∧
      GetValue (constDB (.error (.driver "pq: connection refused"))) "select 1" []
        = ("", some (.driver "pq: connection refused"))) ∧
    TableExists (constDB (.error (.driver "pq: connection refused"))) "t"
        = (false, some (.driver "pq: connection refused")) :=
  ⟨(driver_failure_propagates (constDB (.error (.driver "pq: connection refused")))
      (.driver "pq: connection refused")).1 "select 1" [] [] rfl,
   (driver_failure_propagates (constDB (.error (.driver "pq: connection refused")))
      (.driver "pq: connection refused")).2.2.2 "t" [] rfl⟩

/-! ## C8 -/

/-- C8: GetRows evaluated on a cursor that yields one row and then stops on
a driver failure (`rows.Err()` is set): the rows read so far are returned as
a table with a nil error, and likewise when `rows.Columns()` reports an
error; neither error reaches the caller. -/
theorem GetRows_drops_cursor_errors :
    GetRows (constDB (.ok (brokenCursor ["x"] [textRow ["1"]]
      (.driver "pq: division by zero")))) "select 1/(2-x) from generate_series(1,3) x" []
      = ([["1"]], none) ∧
    (brokenCursor ["x"] [textRow ["1"]] (.driver "pq: division by zero")).iterErr
      = some (.driver "pq: division by zero") ∧
    GetRows (constDB (.ok (namelessCursor (.driver "sql: Rows are closed")))) "q" []
      = ([], none) := by
  refine ⟨?_, rfl, ?_⟩ <;> decide

/-! ## C9 -/

/-- C9: once the administrative connection has opened, CreateDb returns what
`OpenDb(dbname)` returns after the create statement, whatever that statement
answered (its error is not returned); and when `sql.Open` yields a handle for
both data source names, two calls of CreateDb in succession both return that
handle without error. -/
theorem CreateDb_create_or_open {σ H : Type} (S : Srv σ H) (dbname : String) (w : World σ) :
    (∀ (adm : H) (s1 : σ) (e : Option GoError) (s2 : σ) (out : List String),
      S.Open (dataSourceName "postgres") w.srv = (.ok adm, s1) →
      S.Exec adm ("create database " ++ dbname) s1 = (e, s2) →
      (CreateDb S dbname w).1 = (OpenDb S dbname { srv := s2, stdout := out }).1) ∧
    (∀ h : H, (∀ s : σ, ∃ adm : H, (S.Open (dataSourceName "postgres") s).1 = .ok adm) →
      (∀ s : σ, (S.Open (dataSourceName dbname) s).1 = .ok h) →
      (CreateDb S dbname w).1 = .ok h ∧
      (CreateDb S dbname (CreateDb S dbname w).2).1 = .ok h) := by
  have key : ∀ (w0 : World σ) (adm : H) (s1 : σ),
      S.Open (dataSourceName "postgres") w0.srv = (.ok adm, s1) →
      (CreateDb S dbname w0).1 =
        (S.Open (dataSourceName dbname)
          (S.Exec adm ("create database " ++ dbname) s1).2).1 := by
    intro w0 adm s1 hadm
    simp only [CreateDb, OpenDb, hadm, CreateDb.create]
    cases (S.Exec adm ("create database " ++ dbname) s1).1 <;> simp [World.Printf]
  have twice : ∀ h : H,
      (∀ s : σ, ∃ adm : H, (S.Open (dataSourceName "postgres") s).1 = .ok adm) →
      (∀ s : σ, (S.Open (dataSourceName dbname) s).1 = .ok h) →
      ∀ w0 : World σ, (CreateDb S dbname w0).1 = .ok h := by
    intro h hadm hdb w0
    obtain ⟨adm, ha⟩ := hadm w0.srv
    have hpair : S.Open (dataSourceName "postgres") w0.srv
        = (.ok adm, (S.Open (dataSourceName "postgres") w0.srv).2) := by
      rw [← ha]
    rw [key w0 adm _ hpair, hdb]
  refine ⟨?_, fun h hadm hdb => ⟨twice h hadm hdb w, twice h hadm hdb _⟩⟩
  intro adm s1 e s2 out hadm hexec
  rw [key w adm s1 hadm, hexec]
  rfl

theorem CreateDb_create_or_open_witness :
    (CreateDb shopServer "shop" { srv := true, stdout := [] }).1
      = (OpenDb shopServer "shop" { srv := true, stdout := [] }).1 ∧
    (CreateDb shopServer "shop" { srv := false, stdout := [] }).1
      = .ok (dataSourceName "shop") ∧
    (CreateDb shopServer "shop"
      (CreateDb shopServer "shop" { srv := false, stdout := [] }).2).1
      = .ok (dataSourceName "shop") :=
  ⟨(CreateDb_create_or_open shopServer "shop" { srv := true, stdout := [] }).1
      (dataSourceName "postgres") true
      (some (.driver "pq: database \"shop\" already exists")) true [] rfl rfl,
   (CreateDb_create_or_open shopServer "shop" { srv := false, stdout := [] }).2
      (dataSourceName "shop") (fun _ => ⟨_, rfl⟩) (fun _ => rfl)⟩

/-! ## C10 -/

/-- C10: whenever `db.Query` returned a cursor, the cursor is closed when
GetRows returns, on the normal return and on the return after a failed scan
alike; when `db.Query` failed there is no cursor.  What GetRows hands to its
caller is the table and the error only. -/
theorem GetRows_closes_cursor (db : DB) (query : String) (args : List Arg) :
    (∀ rows : Rows, db.Query query args = .ok rows →
      ∃ left : Rows, (GetRows.run db query args).2 = some left ∧ left.closed = true) ∧
    (∀ err : GoError, db.Query query args = .error err →
      (GetRows.run db query args).2 = none) ∧
    GetRows db query args = (GetRows.run db query args).1 := by
  refine ⟨?_, ?_, rfl⟩
  · intro rows hq
    simp [GetRows.run, hq, Rows.Close]
  · intro err hq
    simp [GetRows.run, hq]

theorem GetRows_closes_cursor_witness :
    (∃ left : Rows, (GetRows.run (constDB (.ok (cursorOf ["a"] [textRow ["x"],
        badRow "pq: bad value", textRow ["z"]]))) "q" []).2 = some left ∧
      left.closed = true) ∧
    (∃ left : Rows, (GetRows.run (constDB (.ok (cursorOf ["a"] [textRow ["x"]]))) "q" []).2
        = some left ∧ left.closed = true) :=
  ⟨(GetRows_closes_cursor (constDB (.ok (cursorOf ["a"] [textRow ["x"],
      badRow "pq: bad value", textRow ["z"]]))) "q" []).1 _ rfl,
   (GetRows_closes_cursor (constDB (.ok (cursorOf ["a"] [textRow ["x"]]))) "q" []).1 _ rfl⟩

/-! ## C11 -/

theorem Store.table_extend (st : Store) (res : List Nat) (blank new : Row)
    (hres : ∀ a ∈ res, a < st.length) :
    Store.table ((st ++ [blank]).set st.length new) (res ++ [st.length])
      = Store.table st res ++ [new] := by
  unfold Store.table
  rw [List.map_append]
  congr 1
  · apply List.map_congr_left
    intro a ha
    have hlt : a < st.length := hres a ha
    have hne : st.length ≠ a := by omega
    simp [List.getD_eq_getElem?_getD, List.getElem?_set_ne hne, List.getElem?_append_left hlt]
  · simp [List.getD_eq_getElem?_getD]

theorem GetRows.loopStore_refines (colNames : List String) (pend : List RowData)
    (st : Store) (res : List Nat) (tbl : Table)
    (hres : ∀ a ∈ res, a < st.length) (htbl : Store.table st res = tbl) :
    Store.table (GetRows.loopStore colNames pend st res).2
        (GetRows.loopStore colNames pend st res).1.1
      = (GetRows.loop colNames pend tbl).1.1 ∧
    (GetRows.loopStore colNames pend st res).1.2 = (GetRows.loop colNames pend tbl).1.2 := by
  induction pend generalizing st res tbl with
  | nil => simp [GetRows.loopStore, GetRows.loop, htbl]
  | cons row rest ih =>
    cases hs : row.Scan colNames.length with
    | error err => simp [GetRows.loopStore, GetRows.loop, hs, Store.table]
    | ok written =>
      simp only [GetRows.loopStore, GetRows.loop, hs]
      apply ih
      · intro a ha
        rw [List.length_set, List.length_append, List.length_singleton]
        rcases List.mem_append.mp ha with h | h
        · have := hres a h
          omega
        · simp only [List.mem_singleton] at h
          omega
      · rw [Store.table_extend st res _ _ hres, htbl]

/-- C11: when the query executes and every row scans, the table GetRows
returns is the list of the cursor's rows in cursor order, each row holding in
cell `j` the text the scan stored through destination `j`; the same table is
obtained when each row's buffer is a separately allocated array, so no scan
writes into a row already in the table. -/
theorem GetRows_rows_in_order (db : DB) (query : String) (args : List Arg) (rows : Rows)
    (hq : db.Query query args = .ok rows)
    (hscan : ∀ row ∈ rows.pending, ∃ written,
      row.Scan rows.Columns.1.length = .ok written) :
    GetRows db query args = (rows.pending.map (scannedRow rows.Columns.1), none) ∧
    (∀ (i : Nat) (row : RowData), rows.pending[i]? = some row →
      (GetRows db query args).1[i]? = some (scannedRow rows.Columns.1 row)) ∧
    (∀ row ∈ rows.pending, ∀ written : Nat → String,
      row.Scan rows.Columns.1.length = .ok written →
      ∀ j : Nat, j < rows.Columns.1.length →
        (scannedRow rows.Columns.1 row)[j]? = some (written j)) ∧
    Store.table (GetRows.loopStore rows.Columns.1 rows.pending [] []).2
        (GetRows.loopStore rows.Columns.1 rows.pending [] []).1.1
      = (GetRows db query args).1 := by
  have hrows : GetRows db query args
      = (rows.pending.map (scannedRow rows.Columns.1), none) := by
    rw [GetRows_of_query_ok db query args rows hq, GetRows.loop_all_ok _ _ hscan]
    simp
  refine ⟨hrows, ?_, ?_, ?_⟩
  · intro i row hi
    rw [hrows]
    simp [List.getElem?_map, hi]
  · intro row _ written hw j hj
    simp [scannedRow, hw, writeColsAfter, List.getElem?_map, List.getElem?_range hj]
  · rw [GetRows_of_query_ok db query args rows hq]
    exact (GetRows.loopStore_refines _ _ [] [] [] (by simp) rfl).1

theorem GetRows_rows_in_order_witness :
    GetRows (constDB (.ok (cursorOf ["?column?", "?column?"]
      [textRow ["a", "b"], textRow ["c", "d"]]))) "SELECT 'a','b' UNION SELECT 'c','d'" []
      = ([["a", "b"], ["c", "d"]], none) :=
  (GetRows_rows_in_order (constDB (.ok (cursorOf ["?column?", "?column?"]
      [textRow ["a", "b"], textRow ["c", "d"]]))) "SELECT 'a','b' UNION SELECT 'c','d'" []
      (cursorOf ["?column?", "?column?"] [textRow ["a", "b"], textRow ["c", "d"]]) rfl
      (by
        intro row hrow
        simp only [cursorOf, List.mem_cons, List.mem_singleton, List.not_mem_nil,
          or_false] at hrow
        rcases hrow with h | h <;> subst h <;> exact ⟨_, rfl⟩)).1

/-! ## C12 -/

theorem GetColumn.loop_empty_row (t : Table) (h : [] ∈ t) (res : List String) :
    GetColumn.loop t res = none := by
  induction t generalizing res with
  | nil => simp at h
  | cons r rest ih =>
    cases r with
    | nil => simp [GetColumn.loop]
    | cons v vs =>
      have hrest : [] ∈ rest := by
        rcases List.mem_cons.mp h with h1 | h1
        · cases h1
        · exact h1
      simp [GetColumn.loop, ih hrest]

theorem GetColumn.body_total_of_widths (t : Table) (M : Nat) (hM : ∀ r ∈ t, r.length = M) :
    ∃ out, GetColumn.body t = some out := by
  match t, hM with
  | [], _ => exact ⟨([], none), by simp [GetColumn.body]⟩
  | r0 :: rest, hM =>
    have h0 : r0.length = M := hM r0 (List.mem_cons_self _ _)
    by_cases h1 : M = 1
    · subst h1
      obtain ⟨col, hloop, _⟩ := GetColumn.loop_width_one (r0 :: rest) hM []
      simp only [List.nil_append] at hloop
      exact ⟨(col, none), by simp [GetColumn.body, h0, hloop]⟩
    · simp [GetColumn.body, h0, h1]

/-- C12: on every table GetRows returns without error, GetColumn does not
panic: it returns a pair.  On a table that GetRows cannot return, with a
first row of width 1 and some later row of width 0, `row[0]` is out of range
and GetColumn panics. -/
theorem GetColumn_total (db : DB) (query : String) (args : List Arg) (t : Table)
    (ht : GetRows db query args = (t, none)) :
    (∃ out, GetColumn db query args = some out) ∧
    (∃ out, GetColumn.body t = some out) ∧
    (∀ (r0 : Row) (rest : Table), r0.length = 1 → [] ∈ rest →
      GetColumn.body (r0 :: rest) = none) := by
  obtain ⟨M, hM⟩ := GetRows_ok_widths db query args t ht
  have hbody := GetColumn.body_total_of_widths t M hM
  refine ⟨?_, hbody, ?_⟩
  · rw [GetColumn_eq_body db query args t ht]
    exact hbody
  · intro r0 rest h0 hmem
    have hloop := GetColumn.loop_empty_row (r0 :: rest) (List.mem_cons_of_mem _ hmem) []
    simp [GetColumn.body, h0, hloop]

theorem GetColumn_total_witness :
    (∃ out, GetColumn (constDB (.ok (cursorOf ["a"] [textRow ["x"], textRow ["y"]]))) "q" []
      = some out) ∧
    GetColumn.body [["x"], []] = none :=
  ⟨(GetColumn_total (constDB (.ok (cursorOf ["a"] [textRow ["x"], textRow ["y"]]))) "q" []
      [["x"], ["y"]] (by decide)).1,
   (GetColumn_total (constDB (.ok (cursorOf ["a"] [textRow ["x"], textRow ["y"]]))) "q" []
      [["x"], ["y"]] (by decide)).2.2 ["x"] [[]] rfl (by simp)⟩

/-! ## C13 -/

theorem GetValue_ok_iff (db : DB) (query : String) (args : List Arg) (t : Table)
    (ht : GetRows db query args = (t, none)) (v : String) :
    GetValue db query args = (v, none) ↔ t = [[v]] := by
  have hrow := GetRow_eq_body db query args t ht
  match t, hrow with
  | [], hrow =>
    rw [GetValue_eq_of_row db query args [] (by rw [hrow]; simp [GetRow.body])]
    simp [GetValue.body]
  | [r], hrow =>
    rw [GetValue_eq_of_row db query args r (by rw [hrow]; simp [GetRow.body])]
    by_cases hr : r.length = 1
    · obtain ⟨x, rfl⟩ := List.length_eq_one.mp hr
      simp [GetValue.body]
    · have hne : r ≠ [v] := by
        rintro rfl
        exact hr rfl
      simp [GetValue.body, hr, hne]
  | r1 :: r2 :: rest, hrow =>
    rw [GetValue_eq_of_error db query args [] _
      (by rw [hrow, GetRow.body_many (r1 :: r2 :: rest) (by simp)])]
    simp

theorem GetColumn.loop_length (t : Table) (res out : List String)
    (h : GetColumn.loop t res = some out) : out.length = res.length + t.length := by
  induction t generalizing res with
  | nil =>
    simp only [GetColumn.loop, Option.some.injEq] at h
    simp [← h]
  | cons r rest ih =>
    cases r with
    | nil => simp [GetColumn.loop] at h
    | cons x xs =>
      simp only [GetColumn.loop, List.getElem?_cons_zero] at h
      have := ih _ h
      simp only [List.length_append, List.length_singleton, List.length_cons,
        List.length_nil] at this ⊢
      omega

theorem GetColumn.body_ok_iff (t : Table) (v : String) :
    GetColumn.body t = some ([v], none) ↔ t = [[v]] := by
  constructor
  · intro h
    match t, h with
    | [], h => simp [GetColumn.body] at h
    | r0 :: rest, h =>
      by_cases h0 : r0.length = 1
      · obtain ⟨x, rfl⟩ := List.length_eq_one.mp h0
        cases hl : GetColumn.loop ([x] :: rest) [] with
        | none => simp [GetColumn.body, hl] at h
        | some out =>
          simp only [GetColumn.body, hl] at h
          simp at h
          subst h
          have hlen := GetColumn.loop_length _ _ _ hl
          simp only [List.length_singleton, List.length_nil, List.length_cons] at hlen
          have hrest : rest = [] := List.length_eq_zero.mp (by omega)
          subst hrest
          simp [GetColumn.loop] at hl
          simp [hl]
      · simp [GetColumn.body, h0] at h
  · rintro rfl
    simp [GetColumn.body, GetColumn.loop]

/-- C13: on a table GetRows returned, GetValue succeeds with `v` exactly when
GetColumn succeeds with the one-element column `[v]`. -/
theorem GetValue_iff_GetColumn_single (db : DB) (query : String) (args : List Arg) (t : Table)
    (ht : GetRows db query args = (t, none)) (v : String) :
    GetValue db query args = (v, none) ↔ GetColumn db query args = some ([v], none) := by
  rw [GetValue_ok_iff db query args t ht v, GetColumn_eq_body db query args t ht,
    GetColumn.body_ok_iff t v]

theorem GetValue_iff_GetColumn_single_witness :
    GetValue (constDB (.ok (cursorOf ["count"] [textRow ["3"]]))) "q" [] = ("3", none) ↔
      GetColumn (constDB (.ok (cursorOf ["count"] [textRow ["3"]]))) "q" []
        = some (["3"], none) :=
  GetValue_iff_GetColumn_single (constDB (.ok (cursorOf ["count"] [textRow ["3"]]))) "q" []
    [["3"]] (by decide) "3"

/-! ## C14 -/

/-- C14: TableExists on the scalar `v` of its count query returns true and no
error exactly when `v` is `"1"`, false and no error exactly when `v` is
`"0"`, false and an error naming `v` for any other text, false and the error
of GetValue when GetValue fails; it never returns true with an error. -/
theorem TableExists_decides (db : DB) (tableName : String) :
    (∀ v : String, GetValue db TableExists.query [Arg.str tableName] = (v, none) →
      (TableExists db tableName = (true, none) ↔ v = "1") ∧
      (TableExists db tableName = (false, none) ↔ v = "0") ∧
      (v ≠ "0" → v ≠ "1" → TableExists db tableName = (false, some (.errorf
        ("pgTableExists error: query returned " ++ v ++ ", expected '0' or '1'"))))) ∧
    (∀ (s : String) (err : GoError),
      GetValue db TableExists.query [Arg.str tableName] = (s, some err) →
      TableExists db tableName = (false, some err)) ∧
    (∀ err : GoError, TableExists db tableName ≠ (true, some err)) := by
  have h01 : ("0" : String) ≠ "1" := by decide
  refine ⟨?_, ?_, ?_⟩
  · intro v hv
    by_cases h1 : v = "1"
    · subst h1
      simp [TableExists, hv]
    · by_cases h0 : v = "0"
      · subst h0
        simp [TableExists, hv]
      · simp [TableExists, hv, h0, h1]
  · intro s err hv
    simp [TableExists, hv]
  · intro err
    rcases hv : GetValue db TableExists.query [Arg.str tableName] with ⟨v, _ | e⟩
    · by_cases hbad : v ≠ "0" ∧ v ≠ "1"
      · simp [TableExists, hv, hbad]
      · simp [TableExists, hv, hbad]
    · simp [TableExists, hv]

theorem TableExists_decides_witness :
    TableExists (constDB (.ok (cursorOf ["count"] [textRow ["1"]]))) "t" = (true, none) ∧
    TableExists (constDB (.ok (cursorOf ["count"] [textRow ["0"]]))) "t" = (false, none) ∧
    TableExists (constDB (.ok (cursorOf ["count"] [textRow ["2"]]))) "t"
      = (false, some (.errorf "pgTableExists error: query returned 2, expected '0' or '1'")) :=
  ⟨((TableExists_decides (constDB (.ok (cursorOf ["count"] [textRow ["1"]]))) "t").1
      "1" (by decide)).1.mpr rfl,
   ((TableExists_decides (constDB (.ok (cursorOf ["count"] [textRow ["0"]]))) "t").1
      "0" (by decide)).2.1.mpr rfl,
   ((TableExists_decides (constDB (.ok (cursorOf ["count"] [textRow ["2"]]))) "t").1
      "2" (by decide)).2.2 (by decide) (by decide)⟩

/-! ## C15 -/

theorem intercalate_go_append (x y sep : String) (l : List String) :
    String.intercalate.go (x ++ y) sep l = x ++ String.intercalate.go y sep l := by
  induction l generalizing y with
  | nil => simp [String.intercalate.go]
  | cons a rest ih =>
    simp only [String.intercalate.go]
    rw [String.append_assoc x y sep, String.append_assoc x (y ++ sep) a, ih]

theorem AsLine_cons_cons (a b : String) (rest : Row) :
    AsLine (a :: b :: rest) = a ++ "\t" ++ AsLine (b :: rest) := by
  simp only [AsLine, String.intercalate, String.intercalate.go]
  rw [intercalate_go_append (a ++ "\t") b "\t" rest]

theorem newlines_append (s t : String) : newlines (s ++ t) = newlines s + newlines t := by
  simp [newlines, List.count_append]

theorem newlines_AsLine (r : Row) (h : ∀ v ∈ r, newlines v = 0) : newlines (AsLine r) = 0 := by
  match r, h with
  | [], _ => rfl
  | [a], h => exact h a (List.mem_singleton.mpr rfl)
  | a :: b :: rest, h =>
    have ha : newlines a = 0 := h a (List.mem_cons_self _ _)
    have hrest : newlines (AsLine (b :: rest)) = 0 :=
      newlines_AsLine (b :: rest) (fun v hv => h v (List.mem_cons_of_mem _ hv))
    have htab : newlines "\t" = 0 := by decide
    rw [AsLine_cons_cons, newlines_append, newlines_append, ha, htab, hrest]

theorem AsTable.loop_eq (t : Table) (res : String) :
    AsTable.loop t res = res ++ AsTable.loop t "" := by
  induction t generalizing res with
  | nil => simp [AsTable.loop]
  | cons r rest ih =>
    simp only [AsTable.loop]
    rw [ih (res ++ (AsLine r ++ "\n")), ih ("" ++ (AsLine r ++ "\n")), String.empty_append,
      String.append_assoc]

theorem AsTable_cons (r : Row) (t : Table) :
    AsTable (r :: t) = AsLine r ++ "\n" ++ AsTable t := by
  simp only [AsTable, AsTable.loop]
  rw [AsTable.loop_eq, String.empty_append]

theorem AsTable_append (t1 t2 : Table) : AsTable (t1 ++ t2) = AsTable t1 ++ AsTable t2 := by
  induction t1 with
  | nil => simp [AsTable, AsTable.loop]
  | cons r rest ih =>
    rw [List.cons_append, AsTable_cons, AsTable_cons, ih]
    simp only [String.append_assoc]

/-- C15: AsTable of a table is the concatenation, in row order, of AsLine of
each row followed by a newline, where AsLine puts a tab between consecutive
values; so AsTable of the empty table is the empty string, AsTable of an
append is the append of the AsTables, and when no value contains a newline
the output has as many newlines as the table has rows. -/
theorem AsTable_lines (t : Table) :
    AsTable t = String.join (t.map (fun r => AsLine r ++ "\n")) ∧
    AsTable [] = "" ∧
    (∀ r : Row, AsTable (r :: t) = AsLine r ++ "\n" ++ AsTable t) ∧
    (∀ t2 : Table, AsTable (t ++ t2) = AsTable t ++ AsTable t2) ∧
    ((∀ r ∈ t, ∀ v ∈ r, newlines v = 0) → newlines (AsTable t) = t.length) ∧
    (AsLine [] = "" ∧ (∀ a : String, AsLine [a] = a) ∧
      ∀ (a b : String) (rest : Row),
        AsLine (a :: b :: rest) = a ++ "\t" ++ AsLine (b :: rest)) := by
  refine ⟨?_, rfl, fun r => AsTable_cons r t, AsTable_append t, ?_,
    rfl, fun _ => rfl, AsLine_cons_cons⟩
  · apply String.ext
    rw [String.data_join]
    induction t with
    | nil => rfl
    | cons r rest ih =>
      rw [AsTable_cons, String.data_append, ih]
      simp
  · intro h
    induction t with
    | nil => rfl
    | cons r rest ih =>
      have hr : newlines (AsLine r) = 0 :=
        newlines_AsLine r (h r (List.mem_cons_self _ _))
      have hnl : newlines "\n" = 1 := by decide
      rw [AsTable_cons, newlines_append, newlines_append, hr, hnl,
        ih (fun x hx => h x (List.mem_cons_of_mem _ hx)), List.length_cons]
      omega

theorem AsTable_lines_witness :
    newlines (AsTable [["a", "b"], ["c", "d"]]) = 2 ∧
    AsTable [["a", "b"], ["c", "d"]] = "a\tb\nc\td\n" :=
  ⟨(AsTable_lines [["a", "b"], ["c", "d"]]).2.2.2.2.1 (by decide), by decide⟩

end Pgutil
